import Mathlib

/-!
Verification of the LeadEngine website-scraper core against its
natural-language specification.

The Python sources are shallowly embedded as executable Lean definitions:

* `parseEventDate` embeds `WebsiteScraperModule._parse_event_date`
  (src/modules/website_scraper/main.py, lines 299-328);
* `Db`, `saveCompany`, `saveNewCompanies`, `saveOrGetEvent`, `processEvent`
  embed the reconciliation/persistence logic of `execute` and its helpers
  (`_save_company`, `_save_or_get_event`, `_get_event_company_count`,
  `_get_existing_company_names`);
* `Page`, `extractExhibitorsApiUrl`, `getExhibitorsCountFast`,
  `getExhibitors`, `fetchExhibitorsFromApi` embed the TargiKielce parser
  (src/modules/website_scraper/parsers/targi_kielce.py);
* `fetchUrl` embeds `ScrapingEngine.fetch_url` (src/modules/website_scraper/engine.py);
* `bmRun` embeds `BaseModule.run` / `_setup` / `_cleanup` (src/common/base_module.py).

External libraries (HTTP transport, BeautifulSoup HTML parsing, JSON
decoding, the SQL store) are modelled at their call boundary: an HTTP
fetch is a function from a URL to an optional result supplied as a
parameter, a parsed listing page is a `Page` record holding exactly the
observations the source code makes of the parsed HTML (the decoded
Vue-settings blob, the countable table rows, the result of the HTML
fallback extraction), and the SQL store is a `Db` record of rows, with
SQL `WHERE x = ?` lookups modelled as string equality.  The current date
(`datetime.now()`) is passed in as the explicit parameter `today`.

Python string primitives (`replace`, `split`, slicing, `isdigit`) are
embedded as structural functions over the character list of a `String`,
matching Python's per-code-point semantics.
-/

/-! ### Python string primitives -/

/-- Python `s.replace(a, b)` for single characters, per code point. -/
def pyReplaceChar (a b : Char) (s : String) : String :=
  String.mk (s.data.map fun c => if c = a then b else c)

/-- Python `s.split(sep)` for a single-character separator, on a char
list: `"".split('.') == ['']`, and empty fields are kept. -/
def pySplitCharAux (sep : Char) : List Char → List (List Char)
  | [] => [[]]
  | c :: rest =>
      let r := pySplitCharAux sep rest
      if c = sep then [] :: r
      else
        match r with
        | h :: t => (c :: h) :: t
        | [] => [[c]]

/-- Python `s.split(sep)` for a single-character separator. -/
def pySplitChar (sep : Char) (s : String) : List String :=
  (pySplitCharAux sep s.data).map String.mk

/-- Python `s[:n]`: the first `n` code points. -/
def pyTake (s : String) (n : Nat) : String :=
  String.mk (s.data.take n)

/-- Python `str.isdigit` restricted to ASCII digits: true iff the string
is nonempty and all characters are digits. -/
def isDigits (s : String) : Bool :=
  !s.data.isEmpty && s.data.all Char.isDigit

/-- Python `int(s)` for a string of decimal digits. -/
def pyToNat (s : String) : Nat :=
  s.data.foldl (fun a c => a * 10 + (c.toNat - 48)) 0

/-- Zero-padded decimal rendering, Python `f"{n:0wd}"`. -/
def padNum (w n : Nat) : String :=
  let s := toString n
  String.mk (List.replicate (w - s.length) '0') ++ s

/-! ### Date parsing: `_parse_event_date` (main.py lines 299-328)

Python: `parts = date_str.replace('-', '.').split('.')`, then a scan of
`reversed(parts)` assigning `year` to a 4-digit numeric part and, for
numeric parts of length at most 2, `month` on the first hit and `day` on
every later hit (each later hit overwrites `day`).  The result is
formatted when `year and month and day` are all truthy (non-`None` and
non-zero), else the current date is returned. -/

/-- The scan over `reversed(parts)` in `_parse_event_date`: state is
`(year, month, day)`. -/
def scanDateParts : List String → Option Nat → Option Nat → Option Nat →
    Option Nat × Option Nat × Option Nat
  | [], y, m, d => (y, m, d)
  | p :: rest, y, m, d =>
      if p.length = 4 && isDigits p then
        scanDateParts rest (some (pyToNat p)) m d
      else if p.length ≤ 2 && isDigits p then
        match m with
        | none => scanDateParts rest y (some (pyToNat p)) d
        | some _ => scanDateParts rest y m (some (pyToNat p))
      else
        scanDateParts rest y m d

/-- Embedding of `_parse_event_date(date_str)`.  `today` stands for
`datetime.now().strftime('%Y-%m-%d')`. -/
def parseEventDate (today : String) (dateStr : String) : String :=
  if dateStr = "" then today
  else
    let parts := pySplitChar '.' (pyReplaceChar '-' '.' dateStr)
    if parts.length ≥ 3 then
      match scanDateParts parts.reverse none none none with
      | (some y, some m, some d) =>
          if y ≠ 0 && m ≠ 0 && d ≠ 0 then
            padNum 4 y ++ "-" ++ padNum 2 m ++ "-" ++ padNum 2 d
          else today
      | _ => today
    else today

example : parseEventDate "T" "12-14.03.2025" = "2025-03-12" := by decide
example : parseEventDate "T" "" = "T" := by decide
example : parseEventDate "T" "garbage" = "T" := by decide
example : parseEventDate "T" "05.2025" = "T" := by decide
example : parseEventDate "T" "7.03.2025" = "2025-03-07" := by decide
example : parseEventDate "T" "10.04.2026" = "2026-04-10" := by decide

/-! ### TargiKielce parser data model (targi_kielce.py)

A fetched exhibitors-listing page is observed by the source code through
three BeautifulSoup queries; `Page` records their outcomes:

* `blob`: the `v-init:settings` attribute of the
  `[data-vue-app="exhibitors-list"]` element, after HTML-entity decoding
  and `json.loads`.  `none` = element/attribute absent or empty,
  `some none` = attribute present but not valid JSON (JSONDecodeError),
  `some (some s)` = decoded settings object;
* `tableRows`: the rows matched by `soup.select('table tr')`, each
  recording whether it has a `div.main-title a` sub-element
  (the structural fallback count of `get_exhibitors_count_fast`);
* `htmlFallbackExhibitors`: the rows that `_parse_exhibitors_from_html`
  extracts from the page (the HTML fallback of `get_exhibitors`).
-/

/-- An exhibitor summary record as produced by the parser. -/
structure Exhibitor where
  name : String
  country : String
  stand : String
  detailsUrl : String
deriving DecidableEq, Inhabited

/-- The `pager` sub-object of the Vue settings; `none` fields model
missing JSON keys. -/
structure Pager where
  total : Option Nat
  rowCount : Option Nat
deriving DecidableEq, Inhabited

/-- The decoded `v-init:settings` JSON object, as read by the source:
`searchUrl` (Python `settings_data.get('searchUrl', '')`, so a missing
key is the empty string) and the optional `pager` object. -/
structure VueSettings where
  searchUrl : String
  pager : Option Pager
deriving DecidableEq, Inhabited

/-- One row of `soup.select('table tr')`. -/
structure TableRow where
  hasMainTitleLink : Bool
deriving DecidableEq, Inhabited

/-- A parsed exhibitors-listing page (see section comment). -/
structure Page where
  blob : Option (Option VueSettings)
  tableRows : List TableRow
  htmlFallbackExhibitors : List Exhibitor
deriving DecidableEq, Inhabited

/-- A response of the exhibitors search API: `{settings: {pager: {total: ...}},
view: "<html>"}`. `total = none` models a missing key; `rows` is what
`_parse_exhibitors_from_api_html` extracts from `view`. -/
structure ApiResponse where
  total : Option Nat
  view : String
  rows : List Exhibitor
deriving DecidableEq, Inhabited

/-- The HTTP side effects available to the parser: `page url` is the
outcome of `engine.get_html_content(url)` (already parsed into a `Page`),
`api url` the outcome of `engine.fetch_json(url)` for the exhibitors API. -/
structure Env where
  page : String → Option Page
  api : String → Option ApiResponse

/-- The parser's single-slot HTML cache: `_cached_html` / `_cached_url`
(both are always set and cleared together). -/
abbrev CacheState := Option (String × Page)

/-- Embedding of `_extract_exhibitors_api_url` (targi_kielce.py lines
192-219): returns `(search_url, settings_data)` only when the blob
decodes and `searchUrl` is a nonempty string; otherwise `(None, None)`
— also when the settings decoded fine but `searchUrl` is absent/empty. -/
def extractExhibitorsApiUrl (p : Page) : Option String × Option VueSettings :=
  match p.blob with
  | some (some s) => if s.searchUrl ≠ "" then (some s.searchUrl, some s) else (none, none)
  | _ => (none, none)

/-- `pager.get('rowCount', 0)` after `vue_settings.get('pager', {})`. -/
def rowCountOf (s : VueSettings) : Nat :=
  ((s.pager).bind (·.rowCount)).getD 0

/-- Result of `get_exhibitors_count_fast`: the returned count, the cache
state afterwards, and how many page-body fetches were issued. -/
structure CFOut where
  count : Nat
  cache : CacheState
  fetches : Nat
deriving DecidableEq

/-- Embedding of `get_exhibitors_count_fast` (targi_kielce.py lines
98-132): fetch the page (one fetch always); on failure return 0 leaving
the cache untouched; on success store `(url, page)` in the cache, then
return the declared `pager.rowCount` when the settings were extracted,
else the structural count of table rows having a `div.main-title a`. -/
def getExhibitorsCountFast (page : String → Option Page) (st : CacheState)
    (url : String) : CFOut :=
  match page url with
  | none => { count := 0, cache := st, fetches := 1 }
  | some p =>
      let st' : CacheState := some (url, p)
      match extractExhibitorsApiUrl p with
      | (_, some s) => { count := rowCountOf s, cache := st', fetches := 1 }
      | (_, none) =>
          { count := (p.tableRows.filter (·.hasMainTitleLink)).length,
            cache := st', fetches := 1 }

/-! ### Exhibitor paginator: `_fetch_exhibitors_from_api`
(targi_kielce.py lines 286-364) -/

/-- The fixed query-parameter string appended to the API URL for a page
request (targi_kielce.py lines 311-321). -/
def apiParams (pageIndex rowCount : Nat) : String :=
  "?filters[show_represented_by]=false&filters[query]=&filters[alpha]=" ++
  "&filters[country]=&industryId=0&pageIndex=" ++ toString pageIndex ++
  "&sort[field]=title&sort[method]=asc&count=" ++ toString rowCount

/-- The `while page_index <= max_pages` loop of
`_fetch_exhibitors_from_api`.  One iteration: issue `fetch_json` for the
current page; on no response stop; otherwise update `max_pages` to
`min(resp_total, 20)` when the response declares a truthy (nonzero)
`settings.pager.total`; stop on an empty `view`; stop when the page
parses to no exhibitors; extend the accumulator; stop when
`page_index >= max_pages`; else advance to the next page.

The result is `(all_exhibitors, number of page requests issued)`.  The
hypothesis `hmp` records that every value ever assigned to `max_pages`
in the source is of the form `min(_, 20)`; it bounds the recursion. -/
def fetchApiLoop (api : String → Option ApiResponse) (apiUrl : String)
    (rowCount : Nat) (acc : List Exhibitor) (pageIndex maxPages : Nat)
    (hmp : maxPages ≤ 20) : List Exhibitor × Nat :=
  if hin : pageIndex ≤ maxPages then
    match api (apiUrl ++ apiParams pageIndex rowCount) with
    | none => (acc, 1)
    | some resp =>
        let maxPages2 := match resp.total with
          | some t => if t = 0 then maxPages else min t 20
          | none => maxPages
        have hmp2 : maxPages2 ≤ 20 := by
          simp only [maxPages2]
          cases resp.total with
          | none => exact hmp
          | some t =>
              by_cases h : t = 0
              · simpa [h] using hmp
              · simp [h, Nat.min_le_right]
        if resp.view = "" then (acc, 1)
        else if resp.rows = [] then (acc, 1)
        else
          let acc2 := acc ++ resp.rows
          if hge : pageIndex ≥ maxPages2 then (acc2, 1)
          else
            have hlt : pageIndex < 20 := by
              have h1 : pageIndex < maxPages2 := Nat.lt_of_not_le hge
              omega
            let r := fetchApiLoop api apiUrl rowCount acc2 (pageIndex + 1) maxPages2 hmp2
            (r.1, r.2 + 1)
  else (acc, 0)
termination_by 21 - pageIndex
decreasing_by omega

/-- Embedding of `_fetch_exhibitors_from_api(api_url, engine,
vue_settings)`: read `total` (default 10) and `rowCount` (default 250)
from the settings pager, clamp the page budget to 20, and run the
pagination loop from page index 1.  Returns the accumulated exhibitors
and the number of page requests issued. -/
def fetchExhibitorsFromApi (apiUrl : String) (api : String → Option ApiResponse)
    (vueSettings : Option VueSettings) : List Exhibitor × Nat :=
  let pager := vueSettings.bind (·.pager)
  let totalPages := (pager.bind (·.total)).getD 10
  let rowCount := (pager.bind (·.rowCount)).getD 250
  fetchApiLoop api apiUrl rowCount [] 1 (min totalPages 20) (Nat.min_le_right _ _)

/-! ### Full listing fetch: `get_exhibitors` (targi_kielce.py lines 134-190) -/

/-- Result of `get_exhibitors`: the exhibitors, the cache state
afterwards, the number of page-body fetches (`get_html_content` calls),
the number of exhibitor-API requests, and whether the HTML fallback
(`_parse_exhibitors_from_html`) was attempted. -/
structure GEOut where
  exhibitors : List Exhibitor
  cache : CacheState
  htmlFetches : Nat
  apiRequests : Nat
  usedHtmlFallback : Bool
deriving DecidableEq

/-- The body of `get_exhibitors` once a page body is in hand (lines
164-184): extract the Vue settings; if they were extracted and declare
`pager.rowCount == 0` (including a missing key, Python default 0) return
no exhibitors at once; otherwise query the API when a search URL was
found, and fall back to `_parse_exhibitors_from_html` whenever the
exhibitor list is still empty.  Returns
`(exhibitors, api requests, fallback attempted)`. -/
def getExhibitorsBody (api : String → Option ApiResponse) (p : Page) :
    List Exhibitor × Nat × Bool :=
  let ex := extractExhibitorsApiUrl p
  let earlyEmpty : Bool :=
    match ex.2 with
    | some s => rowCountOf s == 0
    | none => false
  if earlyEmpty then ([], 0, false)
  else
    let fromApi :=
      match ex.1 with
      | some apiUrl => fetchExhibitorsFromApi apiUrl api ex.2
      | none => ([], 0)
    if fromApi.1.isEmpty then (p.htmlFallbackExhibitors, fromApi.2, true)
    else (fromApi.1, fromApi.2, false)

/-- The cache-miss path of `get_exhibitors`: fetch the page body fresh
(one `get_html_content` call); on failure return no exhibitors.  The
cache state is left untouched on this path (the code never writes the
cache here). -/
def getExhibitorsFresh (env : Env) (st : CacheState) (url : String) : GEOut :=
  match env.page url with
  | none =>
      { exhibitors := [], cache := st, htmlFetches := 1, apiRequests := 0,
        usedHtmlFallback := false }
  | some p =>
      let b := getExhibitorsBody env.api p
      { exhibitors := b.1, cache := st, htmlFetches := 1, apiRequests := b.2.1,
        usedHtmlFallback := b.2.2 }

/-- Embedding of `get_exhibitors(exhibitors_url)` (lines 134-190): if the
single-slot cache holds this URL, use the cached body and clear the
slot; otherwise fetch fresh (leaving whatever is in the slot alone). -/
def getExhibitors (env : Env) (st : CacheState) (url : String) : GEOut :=
  match st with
  | some (u, cachedPage) =>
      if u = url then
        let b := getExhibitorsBody env.api cachedPage
        { exhibitors := b.1, cache := none, htmlFetches := 0, apiRequests := b.2.1,
          usedHtmlFallback := b.2.2 }
      else getExhibitorsFresh env st url
  | none => getExhibitorsFresh env st url

/-- The page body `get_exhibitors env st url` operates on: the cached
body when the slot matches the URL, else the freshly fetched one.  Used
to state claims uniformly over both paths. -/
def geSourcePage (env : Env) (st : CacheState) (url : String) : Option Page :=
  match st with
  | some (u, cachedPage) => if u = url then some cachedPage else env.page url
  | none => env.page url

/-! ### Relational store and persistence (main.py lines 258-409)

Only the columns the reconciliation logic reads or compares are carried:
`[CRM].[Event]` rows by `Id`/`Name`/`EventDate`/`WWW`/`DataSourceId`,
`[CRM].[Company]` rows by `EventId`/`Name`/`CompanyEventLink`.  Inserts
append; `SELECT ... WHERE Name = ?` is the first row with that exact
name; `Id` values are assigned from a running counter (the identity
column). -/

/-- A `[CRM].[Event]` row. -/
structure EventRow where
  id : Nat
  name : String
  eventDate : String
  www : String
  dataSourceId : Nat
deriving DecidableEq, Inhabited

/-- A `[CRM].[Company]` row (identity-relevant columns). -/
structure CompanyRow where
  eventId : Nat
  name : String
  companyEventLink : Option String
deriving DecidableEq, Inhabited

/-- The relational store. -/
structure Db where
  nextId : Nat
  events : List EventRow
  companies : List CompanyRow
deriving DecidableEq, Inhabited

/-- An event dict as produced by `get_events` and consumed by `execute`
(`exhibitorsUrl` is `event.get('exhibitors_url', '')`). -/
structure EventInfo where
  name : String
  url : String
  date : String
  exhibitorsUrl : String
deriving DecidableEq, Inhabited

/-- `_get_event_company_count(event_id)` (main.py lines 330-341):
`SELECT COUNT(*) FROM [CRM].[Company] WHERE EventId = ?`. -/
def companyCount (eventId : Nat) (db : Db) : Nat :=
  (db.companies.filter (fun c => c.eventId == eventId)).length

/-- `_get_existing_company_names(event_id)` (main.py lines 343-354):
the stored `Name`s for the event (a set in the source; only membership
is used). -/
def existingCompanyNames (eventId : Nat) (db : Db) : List String :=
  (db.companies.filter (fun c => c.eventId == eventId)).map (·.name)

/-- Embedding of `_save_company(exhibitor, event_id)` (main.py lines
356-409): nothing happens on an empty name; nothing happens when a
`[CRM].[Company]` row with `Name = name[:250]` and this `EventId`
already exists; otherwise one row is inserted whose stored `Name` is the
truncated `name[:250]`.  Returns whether a row was inserted. -/
def saveCompany (ex : Exhibitor) (eventId : Nat) (db : Db) : Bool × Db :=
  if ex.name = "" then (false, db)
  else if db.companies.any (fun c => c.name == pyTake ex.name 250 && c.eventId == eventId) then
    (false, db)
  else
    (true,
      { db with
        companies := db.companies ++
          [{ eventId := eventId, name := pyTake ex.name 250,
             companyEventLink :=
               if ex.detailsUrl ≠ "" then some (pyTake ex.detailsUrl 500) else none }] })

/-- One iteration of the per-event save loop of `execute` (main.py
lines 149-153): an exhibitor whose name is nonempty and whose truncated
name is not among the pre-fetched existing names is offered to
`_save_company`; the saved counter sums the successful inserts. -/
def saveStep (eventId : Nat) (existing : List String) (acc : Nat × Db)
    (ex : Exhibitor) : Nat × Db :=
  if ex.name ≠ "" && !(existing.contains (pyTake ex.name 250)) then
    let r := saveCompany ex eventId acc.2
    (acc.1 + (if r.1 then 1 else 0), r.2)
  else acc

/-- The per-event save loop of `execute` (main.py lines 144-153): the
existing names are queried once (before the loop), then each exhibitor
is processed by `saveStep`. -/
def saveNewCompanies (eventId : Nat) (exhibitors : List Exhibitor) (db : Db) :
    Nat × Db :=
  let existing := existingCompanyNames eventId db
  exhibitors.foldl (saveStep eventId existing) (0, db)

/-- Embedding of `_save_or_get_event(event, data_source_id)` (main.py
lines 258-297): look the event up by its name truncated to 50
characters; if absent, insert a row (with the parsed event date and the
URL truncated to 500) and re-query by name. -/
def saveOrGetEvent (today : String) (ev : EventInfo) (dataSourceId : Nat)
    (db : Db) : Option Nat × Db :=
  let name := pyTake ev.name 50
  match db.events.find? (fun e => e.name == name) with
  | some e => (some e.id, db)
  | none =>
      let row : EventRow :=
        { id := db.nextId, name := name,
          eventDate := parseEventDate today ev.date,
          www := pyTake ev.url 500, dataSourceId := dataSourceId }
      let db' : Db :=
        { db with events := db.events ++ [row], nextId := db.nextId + 1 }
      match db'.events.find? (fun e => e.name == name) with
      | some e => (some e.id, db')
      | none => (none, db')

/-- Terminal outcome of one iteration of the per-event loop in
`execute` (main.py lines 109-165). -/
inductive EventOutcome where
  | saveFailed
  | noUrl
  | noExhibitors
  | skippedUpToDate
  | processed
deriving DecidableEq

/-- Result of processing one event: outcome, store and cache afterwards,
whether the full listing (`get_exhibitors`) was fetched, and how many
companies were saved. -/
structure POut where
  outcome : EventOutcome
  db : Db
  cache : CacheState
  fullListingFetched : Bool
  saved : Nat
deriving DecidableEq

/-- Embedding of one iteration of the per-event loop of `execute`
(main.py lines 109-165): resolve the event row, require an exhibitors
URL, compare the stored company count with the probed expected count
(`get_exhibitors_count_fast`), skip on `expected == 0`, skip as
up-to-date on `stored >= expected`, and otherwise fetch the full
listing and save the new companies. -/
def processEvent (today : String) (env : Env) (st : CacheState) (db : Db)
    (dataSourceId : Nat) (ev : EventInfo) : POut :=
  match saveOrGetEvent today ev dataSourceId db with
  | (none, db1) =>
      { outcome := .saveFailed, db := db1, cache := st,
        fullListingFetched := false, saved := 0 }
  | (some eventId, db1) =>
      if ev.exhibitorsUrl = "" then
        { outcome := .noUrl, db := db1, cache := st,
          fullListingFetched := false, saved := 0 }
      else
        let dbCount := companyCount eventId db1
        let probe := getExhibitorsCountFast env.page st ev.exhibitorsUrl
        if probe.count = 0 then
          { outcome := .noExhibitors, db := db1, cache := probe.cache,
            fullListingFetched := false, saved := 0 }
        else if dbCount ≥ probe.count then
          { outcome := .skippedUpToDate, db := db1, cache := probe.cache,
            fullListingFetched := false, saved := 0 }
        else
          let ge := getExhibitors env probe.cache ev.exhibitorsUrl
          let sv := saveNewCompanies eventId ge.exhibitors db1
          { outcome := .processed, db := sv.2, cache := ge.cache,
            fullListingFetched := true, saved := sv.1 }

/-! ### Fetch client: `ScrapingEngine.fetch_url` (engine.py lines 54-103)

One attempt of `self.session.get/post(...)` followed by
`raise_for_status()` either yields a response with an HTTP status (where
`raise_for_status` raises `HTTPError` iff the status is at least 400) or
raises a transport-level `RequestException`.  The per-attempt outcomes
are supplied as the oracle `outcomes : Nat → AttemptOutcome` indexed by
the 1-based attempt number.  The urllib3 retry adapter installed in
`__init__` sits below this oracle: whatever it does is folded into the
observed outcome of the attempt. -/

/-- Outcome of one `session.get/post` call. -/
inductive AttemptOutcome where
  | resp (status : Nat)
  | transportErr
deriving DecidableEq

/-- Observable result of `fetch_url`: the returned response status
(`none` when the function returns `None`), the number of attempts made,
and the list of back-off sleeps performed, in order. -/
structure FetchRun where
  result : Option Nat
  attempts : Nat
  sleeps : List ℚ
deriving DecidableEq

/-- The `for attempt in range(1, max_retries + 1)` loop of `fetch_url`.
`remaining` counts the iterations the range has left
(`remaining = max_retries + 1 - attempt`); the returned `attempts` and
`sleeps` are the ones performed from this iteration on.  Branches, per
the source: a status below 400 is a success; a 4xx status (HTTPError
with `400 <= status < 500`) returns `None` at once; any other HTTPError
status and any transport error sleep `delay * attempt` and move to the
next attempt when `attempt < max_retries`, else return `None`. -/
def fetchUrlGo (outcomes : Nat → AttemptOutcome) (maxRetries : Nat) (delay : ℚ)
    (attempt : Nat) : Nat → FetchRun
  | 0 => { result := none, attempts := 0, sleeps := [] }
  | remaining + 1 =>
      match outcomes attempt with
      | .resp s =>
          if 400 ≤ s then
            if s < 500 then { result := none, attempts := 1, sleeps := [] }
            else if attempt < maxRetries then
              let r := fetchUrlGo outcomes maxRetries delay (attempt + 1) remaining
              { result := r.result, attempts := r.attempts + 1,
                sleeps := delay * (attempt : ℚ) :: r.sleeps }
            else { result := none, attempts := 1, sleeps := [] }
          else { result := some s, attempts := 1, sleeps := [] }
      | .transportErr =>
          if attempt < maxRetries then
            let r := fetchUrlGo outcomes maxRetries delay (attempt + 1) remaining
            { result := r.result, attempts := r.attempts + 1,
              sleeps := delay * (attempt : ℚ) :: r.sleeps }
          else { result := none, attempts := 1, sleeps := [] }

/-- Embedding of `fetch_url(url)`: run the attempt loop from attempt 1;
the range `range(1, max_retries + 1)` has `max_retries` iterations. -/
def fetchUrl (outcomes : Nat → AttemptOutcome) (maxRetries : Nat) (delay : ℚ) :
    FetchRun :=
  fetchUrlGo outcomes maxRetries delay 1 maxRetries

example :
    fetchUrl (fun _ => .transportErr) 3 1 =
      { result := none, attempts := 3, sleeps := [1, 2] } := by
  norm_num [fetchUrl, fetchUrlGo]
example :
    fetchUrl (fun a => if a < 2 then .resp 503 else .resp 200) 3 1 =
      { result := some 200, attempts := 2, sleeps := [1] } := by
  norm_num [fetchUrl, fetchUrlGo]

/-! ### Module lifecycle: `BaseModule.run` (base_module.py lines 50-155)

`run` calls `_setup`; when it returns `False` the function returns exit
code 1 at once — `_cleanup` runs only in the `finally` of the
`try`-block around `execute`.  `_setup` connects the database before
`_init_module` runs; `WebsiteScraperModule._init_module` constructs the
`ScrapingEngine` (which opens the HTTP session) and then the parser, and
returns `False` on any exception — including exceptions raised after the
engine was already constructed. -/

/-- Outcome of `_init_module`: success, failure before the
`ScrapingEngine` was constructed, or failure after (session opened). -/
inductive InitModuleOutcome where
  | ok
  | failBeforeEngine
  | failAfterEngine
deriving DecidableEq

/-- Outcome of `execute`: a returned boolean or a raised exception. -/
inductive ExecOutcome where
  | returns (b : Bool)
  | raises
deriving DecidableEq

/-- The environment of one `run`: which lifecycle steps succeed. -/
structure RunEnv where
  setupLoggerOk : Bool
  moduleConfigOk : Bool
  dbConnectOk : Bool
  initModule : InitModuleOutcome
  executeOutcome : ExecOutcome
  cleanupModuleRaises : Bool
  dbDisconnectRaises : Bool
deriving DecidableEq

/-- Resource/bookkeeping state of a run. -/
structure RunState where
  dbConnected : Bool
  dbReleased : Bool
  sessionOpen : Bool
  sessionReleased : Bool
  cleanupInvoked : Bool
deriving DecidableEq

/-- Embedding of `BaseModule._setup` (base_module.py lines 50-105):
logger, module config, database connection, `_init_module`; every
failure returns `False`, keeping whatever resources were already
acquired. -/
def bmSetup (env : RunEnv) : Bool × RunState :=
  let s0 : RunState :=
    { dbConnected := false, dbReleased := false, sessionOpen := false,
      sessionReleased := false, cleanupInvoked := false }
  if !env.setupLoggerOk then (false, s0)
  else if !env.moduleConfigOk then (false, s0)
  else if !env.dbConnectOk then (false, s0)
  else
    let s1 := { s0 with dbConnected := true }
    match env.initModule with
    | .failBeforeEngine => (false, s1)
    | .failAfterEngine => (false, { s1 with sessionOpen := true })
    | .ok => (true, { s1 with sessionOpen := true })

/-- Embedding of `BaseModule._cleanup` (lines 107-124) together with
`WebsiteScraperModule._cleanup_module` (main.py lines 69-72): close the
engine's HTTP session (its own `try` swallows a raise), then disconnect
the database (likewise). -/
def bmCleanup (env : RunEnv) (s : RunState) : RunState :=
  let s1 := { s with cleanupInvoked := true }
  let s2 :=
    if s1.sessionOpen && !env.cleanupModuleRaises then
      { s1 with sessionReleased := true }
    else s1
  if s2.dbConnected && !env.dbDisconnectRaises then
    { s2 with dbReleased := true }
  else s2

/-- Embedding of `BaseModule.run` (lines 132-155): exit code 1 without
any cleanup when `_setup` fails; otherwise run `execute` inside
`try ... finally self._cleanup()`. -/
def bmRun (env : RunEnv) : Nat × RunState :=
  match bmSetup env with
  | (false, s) => (1, s)
  | (true, s) =>
      let code : Nat :=
        match env.executeOutcome with
        | .returns true => 0
        | .returns false => 1
        | .raises => 1
      (code, bmCleanup env s)

/-! ## Claims -/

/-- Helper for C3: from any page index at most `21 - pageIndex` requests
are issued by the pagination loop. -/
theorem fetchApiLoop_requests_le
    (api : String → Option ApiResponse) (apiUrl : String) (rowCount : Nat) :
    ∀ (n pageIndex : Nat) (acc : List Exhibitor) (maxPages : Nat) (hmp : maxPages ≤ 20),
      21 - pageIndex ≤ n →
      (fetchApiLoop api apiUrl rowCount acc pageIndex maxPages hmp).2 ≤ 21 - pageIndex := by
  intro n
  induction n with
  | zero =>
      intro pageIndex acc maxPages hmp hle
      rw [fetchApiLoop.eq_def]
      have : ¬ pageIndex ≤ maxPages := by omega
      simp [this]
  | succ n ih =>
      intro pageIndex acc maxPages hmp hle
      rw [fetchApiLoop.eq_def]
      by_cases hin : pageIndex ≤ maxPages
      · simp only [hin, dif_pos]
        rcases hapi : api (apiUrl ++ apiParams pageIndex rowCount) with _ | resp
        · simp; omega
        · simp only []
          by_cases hv : resp.view = ""
          · simp [hv]; omega
          · simp only [hv, if_false]
            by_cases hr : resp.rows = []
            · simp [hr]; omega
            · simp only [hr, if_false]
              by_cases hge : pageIndex ≥ (match resp.total with
                  | some t => if t = 0 then maxPages else min t 20
                  | none => maxPages)
              · simp [hge]; omega
              · simp only [hge, dif_neg, not_false_iff]
                have hrec := ih (pageIndex + 1) (acc ++ resp.rows)
                  (match resp.total with
                    | some t => if t = 0 then maxPages else min t 20
                    | none => maxPages) (by
                      cases htot : resp.total with
                      | none => exact hmp
                      | some t =>
                          by_cases h : t = 0
                          · simpa [h] using hmp
                          · simp [h, Nat.min_le_right]) (by omega)
                simp
                omega
      · simp [hin]

/-- C3: for every settings blob and every assignment of API responses —
including responses declaring arbitrarily large page totals —
`_fetch_exhibitors_from_api` issues at most 20 page requests before
terminating. -/
theorem fetchExhibitorsFromApi_at_most_20_requests
    (apiUrl : String) (api : String → Option ApiResponse)
    (vs : Option VueSettings) :
    (fetchExhibitorsFromApi apiUrl api vs).2 ≤ 20 := by
  unfold fetchExhibitorsFromApi
  have h := fetchApiLoop_requests_le api apiUrl
    ((vs.bind (·.pager) |>.bind (·.rowCount)).getD 250) 21 1 []
    (min ((vs.bind (·.pager) |>.bind (·.total)).getD 10) 20)
    (Nat.min_le_right _ _) (by omega)
  simpa using h

/-- C4 (code bug): `_parse_event_date` maps the range string
`"12-14.03.2025"` to `"2025-03-12"` — the EARLIER date of the range, not
the later one claimed by the specification: the scan over
`reversed(parts)` overwrites `day` on every numeric part of length at
most 2 once `month` is set, so the last such part (the first day of the
range) wins.  The empty string and unparsable input do fall back to the
current date as claimed. -/
theorem parseEventDate_range_takes_first_day (today : String) :
    parseEventDate today "12-14.03.2025" = "2025-03-12" ∧
    parseEventDate today "" = today ∧
    parseEventDate today "garbage" = today := by
  refine ⟨rfl, rfl, rfl⟩

/-- C9: when no configuration blob can be extracted from the fetched
page — the element/attribute is absent or its content is malformed JSON
— `get_exhibitors_count_fast` returns the number of table rows having a
`div.main-title a` sub-element; and a failed page fetch (the modelled
unrecoverable failure) yields 0. -/
theorem getExhibitorsCountFast_fallback_count
    (page : String → Option Page) (st : CacheState) (url : String) (p : Page) :
    (page url = none → (getExhibitorsCountFast page st url).count = 0) ∧
    (page url = some p → (p.blob = none ∨ p.blob = some none) →
      (getExhibitorsCountFast page st url).count =
        (p.tableRows.filter (·.hasMainTitleLink)).length) := by
  constructor
  · intro h
    simp [getExhibitorsCountFast, h]
  · intro h hb
    rcases hb with hb | hb <;>
      simp [getExhibitorsCountFast, h, extractExhibitorsApiUrl, hb]

/-- A listing page with no configuration blob and 7 structurally valid
exhibitor rows. -/
def pageSeven : Page :=
  { blob := none,
    tableRows := List.replicate 7 { hasMainTitleLink := true },
    htmlFallbackExhibitors := [] }

/-- Witness for C9: a blob-less page with 7 exhibitor rows probes as 7,
and a failed fetch probes as 0. -/
theorem getExhibitorsCountFast_fallback_count_witness :
    (getExhibitorsCountFast (fun _ => some pageSeven) (none : CacheState) "u").count = 7 ∧
    (getExhibitorsCountFast (fun _ => none) (none : CacheState) "u").count = 0 := by
  constructor
  · exact ((getExhibitorsCountFast_fallback_count (fun _ => some pageSeven)
      (none : CacheState) "u" pageSeven).2 rfl (Or.inl rfl)).trans (by decide)
  · exact (getExhibitorsCountFast_fallback_count (fun _ => none)
      (none : CacheState) "u" default).1 rfl

/-- A page whose blob parses to a settings object with no `searchUrl`
and no `pager`, over 7 countable exhibitor rows. -/
def pageParsedNoSearchUrl : Page :=
  { blob := some (some { searchUrl := "", pager := none }),
    tableRows := List.replicate 7 { hasMainTitleLink := true },
    htmlFallbackExhibitors := [] }

/-- C10 counterexample: a page whose blob is present and parses
successfully but lacks a pager `rowCount` does NOT always make
`get_exhibitors_count_fast` return 0: when the parsed settings also lack
a nonempty `searchUrl`, `_extract_exhibitors_api_url` discards them
(returns `(None, None)`), and the probe falls back to the structural
table-row count — here 7, not 0. -/
theorem getExhibitorsCountFast_parsed_blob_without_searchUrl_falls_back :
    (getExhibitorsCountFast (fun _ => some pageParsedNoSearchUrl)
      (none : CacheState) "u").count = 7 := by
  decide

/-- C10 as amended: when the parsed settings carry a nonempty
`searchUrl` but lack a pager `rowCount`, `get_exhibitors_count_fast`
returns 0 (the Python `pager.get('rowCount', 0)` default) and never
falls back to the structural table-row count, whatever countable rows
the page has. -/
theorem getExhibitorsCountFast_missing_rowCount_returns_zero
    (page : String → Option Page) (st : CacheState) (url : String)
    (p : Page) (s : VueSettings) :
    page url = some p → p.blob = some (some s) → s.searchUrl ≠ "" →
    s.pager.bind (·.rowCount) = none →
    (getExhibitorsCountFast page st url).count = 0 := by
  intro hp hb hs hr
  simp [getExhibitorsCountFast, hp, extractExhibitorsApiUrl, hb, hs,
    rowCountOf, hr]

/-- A page whose blob parses to a settings object with a search URL but
no pager, over 7 countable exhibitor rows. -/
def pageSearchUrlNoPager : Page :=
  { blob := some (some { searchUrl := "/api/x", pager := none }),
    tableRows := List.replicate 7 { hasMainTitleLink := true },
    htmlFallbackExhibitors := [] }

/-- Witness for the amended C10: with a nonempty `searchUrl` and no
pager `rowCount`, the probe returns 0 despite 7 countable rows. -/
theorem getExhibitorsCountFast_missing_rowCount_returns_zero_witness :
    (getExhibitorsCountFast (fun _ => some pageSearchUrlNoPager)
      (none : CacheState) "u").count = 0 :=
  getExhibitorsCountFast_missing_rowCount_returns_zero
    (fun _ => some pageSearchUrlNoPager) (none : CacheState) "u"
    pageSearchUrlNoPager { searchUrl := "/api/x", pager := none }
    rfl rfl (by decide) rfl

/-- Settings declaring `pager.rowCount = 0` with an empty `searchUrl`. -/
def settingsRowCountZeroNoUrl : VueSettings :=
  { searchUrl := "", pager := some { total := none, rowCount := some 0 } }

/-- A page declaring `pager.rowCount = 0` but with an empty `searchUrl`,
whose HTML fallback extraction yields one exhibitor. -/
def pageRowCountZeroNoSearchUrl : Page :=
  { blob := some (some settingsRowCountZeroNoUrl),
    tableRows := [],
    htmlFallbackExhibitors :=
      [{ name := "X", country := "", stand := "", detailsUrl := "" }] }

/-- Environment serving `pageRowCountZeroNoSearchUrl` for every URL and
answering no API request. -/
def envRowCountZero : Env :=
  { page := fun _ => some pageRowCountZeroNoSearchUrl, api := fun _ => none }

/-- C5 counterexample: a page whose embedded settings declare a total
row count of zero does NOT always make `get_exhibitors` return the
empty sequence without the HTML fallback: when the settings lack a
nonempty `searchUrl`, `_extract_exhibitors_api_url` discards them, the
`rowCount == 0` short-circuit is skipped, and the HTML fallback
extraction runs — here returning one exhibitor. -/
theorem getExhibitors_rowCountZero_without_searchUrl_uses_fallback :
    (getExhibitors envRowCountZero (none : CacheState) "u").usedHtmlFallback = true ∧
    (getExhibitors envRowCountZero (none : CacheState) "u").exhibitors ≠ [] := by
  decide

/-- C5 as amended: for every listing page whose embedded Vue settings
parse with a nonempty `searchUrl` and declare `pager.rowCount = 0`
(Python `pager.get('rowCount', 0) == 0`), `get_exhibitors` returns the
empty sequence immediately: no exhibitor-API request is issued and the
HTML fallback extraction is not attempted.  This holds on both the
cache-hit and the fresh-fetch path (`geSourcePage`). -/
theorem getExhibitors_rowCountZero_returns_empty
    (env : Env) (st : CacheState) (url : String) (p : Page) (s : VueSettings) :
    geSourcePage env st url = some p → p.blob = some (some s) →
    s.searchUrl ≠ "" → rowCountOf s = 0 →
    (getExhibitors env st url).exhibitors = [] ∧
    (getExhibitors env st url).apiRequests = 0 ∧
    (getExhibitors env st url).usedHtmlFallback = false := by
  intro hp hb hs hr
  have hbody : getExhibitorsBody env.api p = ([], 0, false) := by
    simp [getExhibitorsBody, extractExhibitorsApiUrl, hb, hs, hr]
  rcases st with _ | ⟨u, cp⟩
  · simp only [geSourcePage] at hp
    simp [getExhibitors, getExhibitorsFresh, hp, hbody]
  · by_cases hu : u = url
    · subst hu
      simp only [geSourcePage, if_true, Option.some.injEq] at hp
      subst hp
      simp [getExhibitors, hbody]
    · simp only [geSourcePage, hu, if_neg, if_false] at hp
      simp [getExhibitors, getExhibitorsFresh, hu, hp, hbody]

/-- Settings declaring a search URL and `pager.rowCount = 0`. -/
def settingsRowCountZero : VueSettings :=
  { searchUrl := "/api/x", pager := some { total := some 3, rowCount := some 0 } }

/-- A page declaring a search URL and `pager.rowCount = 0`, whose HTML
fallback extraction would yield one exhibitor. -/
def pageRowCountZero : Page :=
  { blob := some (some settingsRowCountZero),
    tableRows := [],
    htmlFallbackExhibitors :=
      [{ name := "X", country := "", stand := "", detailsUrl := "" }] }

/-- Environment serving `pageRowCountZero` for every URL. -/
def envRowCountZeroApi : Env :=
  { page := fun _ => some pageRowCountZero, api := fun _ => none }

/-- Witness for the amended C5: with `searchUrl` present and
`rowCount = 0` the fetch returns no exhibitors, zero API requests, and
does not attempt the HTML fallback. -/
theorem getExhibitors_rowCountZero_returns_empty_witness :
    (getExhibitors envRowCountZeroApi (none : CacheState) "u").exhibitors = [] ∧
    (getExhibitors envRowCountZeroApi (none : CacheState) "u").apiRequests = 0 ∧
    (getExhibitors envRowCountZeroApi (none : CacheState) "u").usedHtmlFallback = false :=
  getExhibitors_rowCountZero_returns_empty envRowCountZeroApi
    (none : CacheState) "u" pageRowCountZero settingsRowCountZero
    rfl rfl (by decide) rfl

/-- A minimal listing page (no blob, no rows). -/
def pagePlain : Page :=
  { blob := none, tableRows := [], htmlFallbackExhibitors := [] }

/-- Environment serving `pagePlain` for every URL. -/
def envPlain : Env :=
  { page := fun _ => some pagePlain, api := fun _ => none }

/-- C6 counterexample: after `get_exhibitors_count_fast("a")` filled the
single-slot cache, a `get_exhibitors` call for the DIFFERENT URL `"b"`
does NOT invalidate the cached entry: the code only reads the cache on a
URL match and never clears it on a mismatch, so the slot still holds
`("a", page)` afterwards (and would still be served to a later
`get_exhibitors("a")`). -/
theorem getExhibitors_other_url_keeps_cache :
    (getExhibitors envPlain
      ((getExhibitorsCountFast envPlain.page (none : CacheState) "a").cache)
      "b").cache = some ("a", pagePlain) := by
  decide

/-- C6 as amended: a successful `get_exhibitors_count_fast(u)` stores
the fetched body in the single-slot cache keyed by `u`; an immediately
following `get_exhibitors(u)` reuses it with zero page-body fetches and
clears the slot, producing the same exhibitors as processing the cached
body; a `get_exhibitors` call for a different URL fetches fresh (one
page-body fetch) and leaves the cached entry in place — it is NOT
invalidated. -/
theorem countFast_single_slot_cache_reuse
    (env : Env) (st : CacheState) (url url' : String) (p : Page) :
    env.page url = some p →
    (getExhibitorsCountFast env.page st url).cache = some (url, p) ∧
    (getExhibitors env (some (url, p)) url).htmlFetches = 0 ∧
    (getExhibitors env (some (url, p)) url).cache = none ∧
    (getExhibitors env (some (url, p)) url).exhibitors =
      (getExhibitorsBody env.api p).1 ∧
    (url' ≠ url →
      (getExhibitors env (some (url, p)) url').htmlFetches = 1 ∧
      (getExhibitors env (some (url, p)) url').cache = some (url, p)) := by
  intro hp
  refine ⟨?_, ?_, ?_, ?_, ?_⟩
  · rcases hx : extractExhibitorsApiUrl p with ⟨a, b⟩
    rcases b with _ | s <;> simp [getExhibitorsCountFast, hp, hx]
  · simp [getExhibitors]
  · simp [getExhibitors]
  · simp [getExhibitors]
  · intro hne
    have hne' : url ≠ url' := fun h => hne h.symm
    rcases henv : env.page url' with _ | q <;>
      constructor <;>
        simp [getExhibitors, getExhibitorsFresh, hne', henv]

/-- Witness for the amended C6, at the concrete environment `envPlain`
with cached URL `"a"` and other URL `"b"`. -/
theorem countFast_single_slot_cache_reuse_witness :
    (getExhibitorsCountFast envPlain.page (none : CacheState) "a").cache =
      some ("a", pagePlain) ∧
    (getExhibitors envPlain (some ("a", pagePlain)) "a").htmlFetches = 0 ∧
    (getExhibitors envPlain (some ("a", pagePlain)) "a").cache = none ∧
    (getExhibitors envPlain (some ("a", pagePlain)) "b").htmlFetches = 1 := by
  have h := countFast_single_slot_cache_reuse envPlain (none : CacheState)
    "a" "b" pagePlain rfl
  exact ⟨h.1, h.2.1, h.2.2.1, (h.2.2.2.2 (by decide)).1⟩

/-- The stored identity keys: `(Company.Name, Company.EventId)` per row,
where `Name` is the truncated name as inserted by `_save_company`. -/
def companyKeys (db : Db) : List (String × Nat) :=
  db.companies.map (fun c => (c.name, c.eventId))

/-- The duplicate check of `_save_company` succeeds exactly when the
truncated key is stored. -/
theorem saveCompany_any_iff_mem (t : String) (eid : Nat) (db : Db) :
    (db.companies.any (fun c => c.name == t && c.eventId == eid)) = true ↔
      (t, eid) ∈ companyKeys db := by
  simp [companyKeys, List.any_eq_true, List.mem_map, Prod.ext_iff]

/-- A name is among `_get_existing_company_names(eid)` exactly when its
key with `eid` is stored. -/
theorem mem_existing_iff_mem_keys (t : String) (eid : Nat) (db : Db) :
    t ∈ existingCompanyNames eid db ↔ (t, eid) ∈ companyKeys db := by
  simp [companyKeys, existingCompanyNames, List.mem_map, List.mem_filter]
  constructor
  · rintro ⟨c, ⟨hc, he⟩, hn⟩
    exact ⟨c, hc, hn, he⟩
  · rintro ⟨c, hc, hn, he⟩
    exact ⟨c, ⟨hc, he⟩, hn⟩

/-- The stored keys after an insert are the old keys plus the truncated
new key. -/
theorem companyKeys_append_row (db : Db) (row : CompanyRow) :
    companyKeys { db with companies := db.companies ++ [row] } =
      companyKeys db ++ [(row.name, row.eventId)] := by
  simp [companyKeys]

/-- `_save_company` preserves distinctness of the stored keys. -/
theorem saveCompany_nodup (ex : Exhibitor) (eid : Nat) (db : Db)
    (h : (companyKeys db).Nodup) :
    (companyKeys (saveCompany ex eid db).2).Nodup := by
  by_cases h1 : ex.name = ""
  · simp [saveCompany, h1, h]
  · by_cases h2 :
        (db.companies.any fun c => c.name == pyTake ex.name 250 && c.eventId == eid) = true
    · simp [saveCompany, h1, h2, h]
    · have hnot : (pyTake ex.name 250, eid) ∉ companyKeys db := by
        rw [← saveCompany_any_iff_mem]
        exact h2
      have hres : companyKeys (saveCompany ex eid db).2 =
          companyKeys db ++ [(pyTake ex.name 250, eid)] := by
        simp [saveCompany, h1, h2, companyKeys]
      rw [hres, List.nodup_append_comm]
      simpa [List.nodup_cons] using ⟨hnot, h⟩

/-- The save loop preserves distinctness of the stored keys. -/
theorem foldl_saveStep_nodup (eid : Nat) (existing : List String) :
    ∀ (exs : List Exhibitor) (acc : Nat × Db),
      (companyKeys acc.2).Nodup →
      (companyKeys (exs.foldl (saveStep eid existing) acc).2).Nodup := by
  intro exs
  induction exs with
  | nil => intro acc h; simpa using h
  | cons ex rest ih =>
      intro acc h
      simp only [List.foldl_cons]
      apply ih
      unfold saveStep
      split
      · simpa using saveCompany_nodup ex eid acc.2 h
      · exact h

/-- C1: per `(truncated name, event id)` key at most one Company row is
ever inserted.  (a) the save loop preserves distinctness of the stored
keys, so no run introduces a duplicate — also for duplicates inside one
fetched listing, where the stale pre-fetched name set lets the loop
reach `_save_company`, whose own existence check then rejects the row;
(b) an exhibitor whose truncated name is already stored for event `eid`
inserts zero rows and leaves the store unchanged; (c) the same name for
a different event `eid2` (not yet stored there) inserts exactly one
row. -/
theorem saveNewCompanies_unique_per_event
    (db : Db) (eid eid2 : Nat) (ex : Exhibitor) (exhibitors : List Exhibitor) :
    ((companyKeys db).Nodup →
      (companyKeys (saveNewCompanies eid exhibitors db).2).Nodup) ∧
    ((pyTake ex.name 250, eid) ∈ companyKeys db →
      (saveNewCompanies eid [ex] db).2 = db ∧
      (saveNewCompanies eid [ex] db).1 = 0) ∧
    (ex.name ≠ "" → (pyTake ex.name 250, eid2) ∉ companyKeys db →
      (saveNewCompanies eid2 [ex] db).2.companies.length =
        db.companies.length + 1 ∧
      (saveNewCompanies eid2 [ex] db).1 = 1) := by
  refine ⟨?_, ?_, ?_⟩
  · intro h
    unfold saveNewCompanies
    exact foldl_saveStep_nodup eid (existingCompanyNames eid db) exhibitors (0, db) h
  · intro hmem
    unfold saveNewCompanies
    simp only [List.foldl_cons, List.foldl_nil]
    unfold saveStep
    split
    · next hcond =>
        have hname : ¬ ex.name = "" := by
          simp only [Bool.and_eq_true, decide_eq_true_eq] at hcond
          exact hcond.1
        have hany :
            (db.companies.any fun c =>
              c.name == pyTake ex.name 250 && c.eventId == eid) = true :=
          (saveCompany_any_iff_mem _ _ _).mpr hmem
        simp [saveCompany, hname, hany]
    · simp
  · intro hne hnm
    unfold saveNewCompanies
    simp only [List.foldl_cons, List.foldl_nil]
    unfold saveStep
    have hncont :
        ((existingCompanyNames eid2 db).contains (pyTake ex.name 250)) = false := by
      rw [Bool.eq_false_iff]
      intro hc
      exact hnm ((mem_existing_iff_mem_keys _ _ _).mp (List.elem_iff.mp hc))
    have hanyf :
        (db.companies.any fun c =>
          c.name == pyTake ex.name 250 && c.eventId == eid2) = false := by
      rw [Bool.eq_false_iff]
      intro hh
      exact hnm ((saveCompany_any_iff_mem _ _ _).mp hh)
    have hns : pyTake ex.name 250 ∉ existingCompanyNames eid2 db :=
      fun hc => hnm ((mem_existing_iff_mem_keys _ _ _).mp hc)
    simp [saveCompany, hne, hncont, hanyf, hns]

/-- The exhibitor "Acme Corp". -/
def exAcme : Exhibitor :=
  { name := "Acme Corp", country := "", stand := "", detailsUrl := "" }

/-- A store already holding "Acme Corp" for event 1. -/
def dbAcme : Db :=
  { nextId := 2, events := [],
    companies := [{ eventId := 1, name := "Acme Corp", companyEventLink := none }] }

/-- Witness for C1 at "Acme Corp": re-processing it for event 1 inserts
zero rows; first processing it for event 2 inserts exactly one row; and
the stored keys stay duplicate-free. -/
theorem saveNewCompanies_unique_per_event_witness :
    (saveNewCompanies 1 [exAcme] dbAcme).2 = dbAcme ∧
    (saveNewCompanies 1 [exAcme] dbAcme).1 = 0 ∧
    (saveNewCompanies 2 [exAcme] dbAcme).2.companies.length =
      dbAcme.companies.length + 1 ∧
    (saveNewCompanies 2 [exAcme] dbAcme).1 = 1 ∧
    (companyKeys (saveNewCompanies 1 [exAcme] dbAcme).2).Nodup := by
  have h := saveNewCompanies_unique_per_event dbAcme 1 2 exAcme [exAcme]
  have h2 := h.2.1 (by decide)
  have h3 := h.2.2 (by decide) (by decide)
  exact ⟨h2.1, h2.2, h3.1, h3.2, h.1 (by decide)⟩

/-- C2: for every event that resolves to a row and has an exhibitors
URL, if the probed expected count is positive and the stored company
count is at least the expected count, the per-event loop terminates the
event as skipped-up-to-date and the full exhibitor listing
(`get_exhibitors`) is never invoked. -/
theorem processEvent_skips_when_up_to_date
    (today : String) (env : Env) (st : CacheState) (db : Db)
    (dsId eid : Nat) (ev : EventInfo) :
    (saveOrGetEvent today ev dsId db).1 = some eid →
    ev.exhibitorsUrl ≠ "" →
    (getExhibitorsCountFast env.page st ev.exhibitorsUrl).count ≠ 0 →
    (getExhibitorsCountFast env.page st ev.exhibitorsUrl).count ≤
      companyCount eid (saveOrGetEvent today ev dsId db).2 →
    (processEvent today env st db dsId ev).outcome = .skippedUpToDate ∧
    (processEvent today env st db dsId ev).fullListingFetched = false := by
  intro h1 h2 h3 h4
  unfold processEvent
  rcases hsg : saveOrGetEvent today ev dsId db with ⟨oid, db1⟩
  rw [hsg] at h1 h4
  simp only at h1
  subst h1
  simp only [h2, if_neg, if_false]
  simp only at h4
  have hge : companyCount eid db1 ≥
      (getExhibitorsCountFast env.page st ev.exhibitorsUrl).count := h4
  simp [h2, h3, hge]

/-- The event record "Ev" with exhibitors URL "eu". -/
def evSkip : EventInfo :=
  { name := "Ev", url := "u", date := "", exhibitorsUrl := "eu" }

/-- A store already holding event "Ev" (id 1) and one company for it. -/
def dbSkip : Db :=
  { nextId := 2,
    events := [{ id := 1, name := "Ev", eventDate := "2026-01-01",
                 www := "u", dataSourceId := 1 }],
    companies := [{ eventId := 1, name := "Acme", companyEventLink := none }] }

/-- Settings declaring one exhibitor. -/
def settingsOneRow : VueSettings :=
  { searchUrl := "/api/x", pager := some { total := some 1, rowCount := some 1 } }

/-- A listing page declaring one exhibitor. -/
def pageOneRow : Page :=
  { blob := some (some settingsOneRow), tableRows := [],
    htmlFallbackExhibitors := [] }

/-- Environment serving `pageOneRow` for every URL. -/
def envOneRow : Env :=
  { page := fun _ => some pageOneRow, api := fun _ => none }

/-- Witness for C2: with 1 company stored and 1 exhibitor probed, the
event is skipped up-to-date and the full listing is never fetched. -/
theorem processEvent_skips_when_up_to_date_witness :
    (processEvent "2026-01-01" envOneRow (none : CacheState) dbSkip 1 evSkip).outcome =
      .skippedUpToDate ∧
    (processEvent "2026-01-01" envOneRow (none : CacheState) dbSkip 1 evSkip).fullListingFetched =
      false :=
  processEvent_skips_when_up_to_date "2026-01-01" envOneRow (none : CacheState)
    dbSkip 1 1 evSkip (by decide) (by decide) (by decide) (by decide)

/-- The run environment in which setup's database connection succeeds
but `_init_module` fails before constructing the engine. -/
def envInitFails : RunEnv :=
  { setupLoggerOk := true, moduleConfigOk := true, dbConnectOk := true,
    initModule := .failBeforeEngine, executeOutcome := .returns true,
    cleanupModuleRaises := false, dbDisconnectRaises := false }

/-- C8 counterexample: when `_setup` fails AFTER the database connection
was acquired (here: `_init_module` returns `False`), `run` returns exit
code 1 WITHOUT invoking `_cleanup`, so the acquired connection is never
released — the guaranteed-release claim does not cover setup failures. -/
theorem bmRun_setup_failure_leaks_connection :
    (bmRun envInitFails).2.dbConnected = true ∧
    (bmRun envInitFails).2.dbReleased = false ∧
    (bmRun envInitFails).2.cleanupInvoked = false ∧
    (bmRun envInitFails).1 = 1 := by
  decide

/-- C8 as amended: whenever `_setup` succeeds, `_cleanup` is invoked at
shutdown regardless of whether `execute` returns `True`, returns
`False`, or raises, and it releases the HTTP session and the database
connection, each provided its own close call does not itself raise.  (If
setup fails after acquiring a resource, cleanup is not invoked and that
resource is not released — see the counterexample.) -/
theorem bmRun_releases_after_successful_setup :
    ∀ env : RunEnv, (bmSetup env).1 = true →
      (bmRun env).2.cleanupInvoked = true ∧
      (env.cleanupModuleRaises = false → (bmRun env).2.sessionReleased = true) ∧
      (env.dbDisconnectRaises = false → (bmRun env).2.dbReleased = true) := by
  intro env h
  rcases env with ⟨l, c, d, im, exo, cr, dr⟩
  cases l
  · simp [bmSetup] at h
  · cases c
    · simp [bmSetup] at h
    · cases d
      · simp [bmSetup] at h
      · cases im
        · cases cr <;> cases dr <;> cases exo <;>
            simp [bmRun, bmSetup, bmCleanup]
        · simp [bmSetup] at h
        · simp [bmSetup] at h

/-- The run environment of a fully successful run. -/
def envAllOk : RunEnv :=
  { setupLoggerOk := true, moduleConfigOk := true, dbConnectOk := true,
    initModule := .ok, executeOutcome := .raises,
    cleanupModuleRaises := false, dbDisconnectRaises := false }

/-- Witness for the amended C8: after a successful setup, even a raising
`execute` ends with cleanup invoked and both resources released. -/
theorem bmRun_releases_after_successful_setup_witness :
    (bmRun envAllOk).2.cleanupInvoked = true ∧
    (bmRun envAllOk).2.sessionReleased = true ∧
    (bmRun envAllOk).2.dbReleased = true := by
  have h := bmRun_releases_after_successful_setup envAllOk (by decide)
  exact ⟨h.1, h.2.1 rfl, h.2.2 rfl⟩

/-- C7 counterexample: a 429 response is a 4xx for `fetch_url`'s
HTTPError branch (`400 <= status < 500`), so — contrary to the claim
that 429 responses are retried with `delay * attempt` back-off —
`fetch_url` returns failure after a single attempt with no sleep when
the attempt yields HTTP 429. -/
theorem fetchUrl_429_no_retry :
    fetchUrl (fun _ => .resp 429) 3 1 =
      { result := none, attempts := 1, sleeps := [] } := by
  decide

/-- The back-off schedule `delay * a, delay * (a+1), ..., delay * (a+k-1)`. -/
def backoffSleeps (delay : ℚ) (a k : Nat) : List ℚ :=
  (List.range' a k).map (fun i : Nat => delay * (i : ℚ))

theorem backoffSleeps_zero (delay : ℚ) (a : Nat) :
    backoffSleeps delay a 0 = [] := rfl

theorem backoffSleeps_succ (delay : ℚ) (a k : Nat) :
    backoffSleeps delay a (k + 1) =
      delay * (a : ℚ) :: backoffSleeps delay (a + 1) k := rfl

/-- Behaviour of the attempt loop from any attempt index: at most
`remaining` further attempts, at least one when the range is nonempty,
and the sleeps performed are exactly `delay * i` for the attempt indices
`i` preceding the final attempt. -/
theorem fetchUrlGo_spec (outcomes : Nat → AttemptOutcome) (maxRetries : Nat)
    (delay : ℚ) :
    ∀ (remaining attempt : Nat), attempt + remaining = maxRetries + 1 →
      (fetchUrlGo outcomes maxRetries delay attempt remaining).attempts ≤ remaining ∧
      (1 ≤ remaining →
        1 ≤ (fetchUrlGo outcomes maxRetries delay attempt remaining).attempts) ∧
      (fetchUrlGo outcomes maxRetries delay attempt remaining).sleeps =
        backoffSleeps delay attempt
          ((fetchUrlGo outcomes maxRetries delay attempt remaining).attempts - 1) := by
  intro remaining
  induction remaining with
  | zero =>
      intro attempt hinv
      simp [fetchUrlGo, backoffSleeps_zero]
  | succ n ih =>
      intro attempt hinv
      cases ho : outcomes attempt with
      | transportErr =>
          by_cases hlt : attempt < maxRetries
          · have hn : 1 ≤ n := by omega
            have ihh := ih (attempt + 1) (by omega)
            simp only [fetchUrlGo, ho, hlt, if_true]
            refine ⟨by omega, by omega, ?_⟩
            obtain ⟨k, hk⟩ :
                ∃ k, (fetchUrlGo outcomes maxRetries delay (attempt + 1) n).attempts
                  = k + 1 :=
              ⟨(fetchUrlGo outcomes maxRetries delay (attempt + 1) n).attempts - 1,
                by have := ihh.2.1 hn; omega⟩
            rw [hk]
            simp only [Nat.add_sub_cancel]
            rw [backoffSleeps_succ]
            have h3 := ihh.2.2
            rw [hk] at h3
            simp only [Nat.add_sub_cancel] at h3
            rw [h3]
          · simp [fetchUrlGo, ho, hlt, backoffSleeps_zero]
      | resp s =>
          by_cases h4 : 400 ≤ s
          · by_cases h5 : s < 500
            · simp [fetchUrlGo, ho, h4, h5, backoffSleeps_zero]
            · by_cases hlt : attempt < maxRetries
              · have hn : 1 ≤ n := by omega
                have ihh := ih (attempt + 1) (by omega)
                simp only [fetchUrlGo, ho, h4, h5, hlt, if_true, if_false]
                refine ⟨by omega, by omega, ?_⟩
                obtain ⟨k, hk⟩ :
                    ∃ k, (fetchUrlGo outcomes maxRetries delay (attempt + 1) n).attempts
                      = k + 1 :=
                  ⟨(fetchUrlGo outcomes maxRetries delay (attempt + 1) n).attempts - 1,
                    by have := ihh.2.1 hn; omega⟩
                rw [hk]
                simp only [Nat.add_sub_cancel]
                rw [backoffSleeps_succ]
                have h3 := ihh.2.2
                rw [hk] at h3
                simp only [Nat.add_sub_cancel] at h3
                rw [h3]
              · simp [fetchUrlGo, ho, h4, h5, hlt, backoffSleeps_zero]
          · simp [fetchUrlGo, ho, h4, backoffSleeps_zero]

/-- An attempt outcome that `fetch_url` retries rather than returns: a
transport-level `RequestException`, or an HTTP status of at least 500
(statuses below 400 succeed, statuses in 400..499 return `None` at
once). -/
def retryable : AttemptOutcome → Prop
  | .resp s => 500 ≤ s
  | .transportErr => True

/-- A 4xx response at any reached attempt stops the loop at once.
Attempt `k` is reached from `attempt` exactly when every attempt in
between is retryable; the run then ends at `k` with the sleeps of the
attempts before `k` only. -/
theorem fetchUrlGo_4xx_stop (outcomes : Nat → AttemptOutcome)
    (maxRetries : Nat) (delay : ℚ) :
    ∀ (remaining attempt k s : Nat), attempt + remaining = maxRetries + 1 →
      attempt ≤ k → k ≤ maxRetries →
      (∀ j, attempt ≤ j → j < k → retryable (outcomes j)) →
      outcomes k = .resp s → 400 ≤ s → s < 500 →
      fetchUrlGo outcomes maxRetries delay attempt remaining =
        { result := none, attempts := k - attempt + 1,
          sleeps := backoffSleeps delay attempt (k - attempt) } := by
  intro remaining
  induction remaining with
  | zero =>
      intro attempt k s hinv hak hkm hj ho h4 h5
      omega
  | succ n ih =>
      intro attempt k s hinv hak hkm hj ho h4 h5
      by_cases hek : attempt = k
      · subst hek
        simp [fetchUrlGo, ho, h4, h5, backoffSleeps_zero]
      · have haltk : attempt < k := by omega
        have hret := hj attempt (le_refl _) haltk
        have hlt : attempt < maxRetries := by omega
        have ihh := ih (attempt + 1) k s (by omega) (by omega) hkm
          (fun j hj1 hj2 => hj j (by omega) hj2) ho h4 h5
        have hk1 : k - attempt = (k - (attempt + 1)) + 1 := by omega
        cases hoa : outcomes attempt with
        | transportErr =>
            simp only [fetchUrlGo, hoa, hlt, if_true]
            rw [ihh, hk1, backoffSleeps_succ]
        | resp s2 =>
            have h500 : 500 ≤ s2 := by
              rw [hoa] at hret
              exact hret
            have h4b : 400 ≤ s2 := by omega
            have h5b : ¬ s2 < 500 := by omega
            simp only [fetchUrlGo, hoa, h4b, if_true, h5b, if_false, hlt]
            rw [ihh, hk1, backoffSleeps_succ]

/-- C7 as amended: `fetch_url` makes at most `max_retries` attempts;
when it makes `k` attempts, the back-off sleeps performed between
consecutive attempts are exactly `delay * 1, ..., delay * (k - 1)`
(retryable outcomes being transport errors and 5xx statuses); and any
4xx response — including 429 — reaching `fetch_url` at ANY attempt `k`
(reached means: every earlier attempt was retryable and `k` is within
the attempt budget) returns failure immediately: the run ends at
attempt `k`, with no further attempt and no sleep at `k`.  (Retries of
429/5xx below `fetch_url` are delegated to the urllib3 adapter
configured in `__init__` and are not visible at this layer.) -/
theorem fetchUrl_retry_spec (outcomes : Nat → AttemptOutcome)
    (maxRetries : Nat) (delay : ℚ) :
    (fetchUrl outcomes maxRetries delay).attempts ≤ maxRetries ∧
    (fetchUrl outcomes maxRetries delay).sleeps =
      backoffSleeps delay 1 ((fetchUrl outcomes maxRetries delay).attempts - 1) ∧
    (∀ k s, 1 ≤ k → k ≤ maxRetries →
      (∀ j, 1 ≤ j → j < k → retryable (outcomes j)) →
      outcomes k = .resp s → 400 ≤ s → s < 500 →
      fetchUrl outcomes maxRetries delay =
        { result := none, attempts := k,
          sleeps := backoffSleeps delay 1 (k - 1) }) := by
  have h := fetchUrlGo_spec outcomes maxRetries delay maxRetries 1 (by omega)
  refine ⟨h.1, h.2.2, ?_⟩
  intro k s hk1 hkm hj ho h4 h5
  have hstop := fetchUrlGo_4xx_stop outcomes maxRetries delay maxRetries 1 k s
    (by omega) hk1 hkm (fun j hj1 hj2 => hj j hj1 hj2) ho h4 h5
  unfold fetchUrl
  rw [hstop]
  congr 1
  omega

/-- The attempt oracle: a transport error on attempt 1, HTTP 404 from
attempt 2 on. -/
def outcomesMidRun4xx : Nat → AttemptOutcome :=
  fun a => if a = 1 then .transportErr else .resp 404

/-- Witness for the amended C7: a transport error on attempt 1 followed
by an HTTP 404 on attempt 2 ends the fetch at attempt 2, with only the
single back-off sleep taken after attempt 1 — the mid-run 4xx consumes
no further attempt and no sleep. -/
theorem fetchUrl_retry_spec_witness :
    fetchUrl outcomesMidRun4xx 3 1 =
      { result := none, attempts := 2, sleeps := backoffSleeps 1 1 1 } :=
  (fetchUrl_retry_spec outcomesMidRun4xx 3 1).2.2 2 404 (by omega) (by omega)
    (fun j h1 h2 => by
      have hj : j = 1 := by omega
      subst hj
      simp [outcomesMidRun4xx, retryable])
    rfl (by omega) (by omega)
